import Mathlib

/-!
Verification of the natural-language specification of the rtodo repository
against its single source file, src/src-tauri/src/lib.rs.

The file defines a shallow embedding of the two functions in that file,
`greet` and `run`. Effects of the external Tauri runtime (joining a spawned
blocking task, reading an environment variable, parsing a filter directive,
focusing a window, running the event loop) are made explicit parameters of
the embedded functions, so every definition is executable and every outcome
of the external world can be examined.
-/

namespace Rtodo

/-- Failure of joining the blocking task spawned by `greet`: the task was
cancelled or its closure panicked before producing a value. -/
inductive JoinError
  | cancelled
  | taskPanicked
deriving DecidableEq

/-- The closure passed to `async_runtime::spawn_blocking` inside `greet`:
it formats the greeting from the captured owned copy of `name`. -/
def greetWorker (name : String) : String :=
  "Hello, " ++ name ++ "! You've been greeted from Rust!"

/-- Outcome of `.await`-ing the spawned blocking task: on success the join
carries the closure's result, on failure it carries a `JoinError`. The
`joinErr` parameter makes the external runtime's behaviour explicit:
`none` means the task completed. -/
def joinResult (name : String) (joinErr : Option JoinError) : Except JoinError String :=
  match joinErr with
  | none => Except.ok (greetWorker name)
  | some e => Except.error e

/-- The `greet` command of lib.rs: spawn the formatting closure on a worker,
await the join, and absorb a join failure with
`unwrap_or_else` returning the hardcoded fallback string. -/
def greet (name : String) (joinErr : Option JoinError) : String :=
  match joinResult name joinErr with
  | Except.ok s => s
  | Except.error _ => "Hello!"

/-- The argument of `invoke_handler` in `run`: the handler list generated by
`tauri::generate_handler![greet]`, naming exactly the commands it registers. -/
def registeredCommands : List String := ["greet"]

/-- Application state visible to the single-instance callback: the keys of the
existing webview windows, which window holds focus, and `rest`, a stand-in for
every other piece of application state (its type is a parameter, so the
callback can touch it only by leaving it unchanged). -/
structure AppState (α : Type) where
  windowKeys : List String
  focusedWindow : Option String
  rest : α
deriving DecidableEq

/-- Error returned by `WebviewWindow::set_focus`; the callback discards it. -/
inductive FocusError
  | backendFailure
deriving DecidableEq

/-- The closure passed to `tauri_plugin_single_instance::init` in `run`:
if a webview window keyed "main" exists, call `set_focus` on it and discard
the result (`let _ = window.set_focus()`); otherwise do nothing. The
`focusResult` parameter is the outcome the windowing backend returns for the
`set_focus` call; on failure the focus is left as it was. -/
def singleInstanceCallback {α : Type} (s : AppState α)
    (focusResult : Except FocusError Unit) : AppState α :=
  if s.windowKeys.contains "main" then
    match focusResult with
    | Except.ok _ => { s with focusedWindow := some "main" }
    | Except.error _ => s
  else s

/-- One `.plugin(...)` call on the Tauri builder: either a bare call into an
external library's initializer, or such a call that additionally installs a
callback defined in this repository. -/
inductive PluginReg (α : Type)
  | libInit (crate : String)
  | libInitWithCallback (crate : String)
      (callback : AppState α → Except FocusError Unit → AppState α)

/-- Crate providing the plugin of a registration. -/
def PluginReg.crateName {α : Type} : PluginReg α → String
  | PluginReg.libInit n => n
  | PluginReg.libInitWithCallback n _ => n

/-- Whether the registration installs a repository-defined callback. -/
def PluginReg.hasRepoCallback {α : Type} : PluginReg α → Bool
  | PluginReg.libInit _ => false
  | PluginReg.libInitWithCallback _ _ => true

/-- The `.plugin(...)` calls made on `tauri::Builder::default()` in `run`, in
source order: `tauri_plugin_opener::init()`,
`tauri_plugin_sql::Builder::default().build()`, and
`tauri_plugin_single_instance::init(...)` with the focus callback. -/
def registeredPlugins (α : Type) : List (PluginReg α) :=
  [ PluginReg.libInit "tauri_plugin_opener",
    PluginReg.libInit "tauri_plugin_sql",
    PluginReg.libInitWithCallback "tauri_plugin_single_instance" singleInstanceCallback ]

/-- The fallback directive string of `run`:
`EnvFilter::new("info,tauri=warn,wry=warn")` receives it when the default
environment variable yields no filter. -/
def defaultFilterDirectives : String := "info,tauri=warn,wry=warn"

/-- Library call `EnvFilter::try_from_default_env()`: reads the default logging environment
variable (`envVar`, `none` when unset) and tries to parse it with the
library's directive parser `tryNew` (a parameter, since the parser lives in
tracing-subscriber, not in this repository); fails when the variable is unset
or does not parse. -/
def tryFromDefaultEnv {F : Type} (tryNew : String → Option F)
    (envVar : Option String) : Option F :=
  envVar.bind tryNew

/-- The `filter_layer` binding of `run`: the filter from the environment when
available, otherwise `unwrap_or_else` builds one from the fixed fallback
directives with the library's infallible constructor `new`. -/
def filterLayer {F : Type} (tryNew : String → Option F) (new : String → F)
    (envVar : Option String) : F :=
  match tryFromDefaultEnv tryNew envVar with
  | some f => f
  | none => new defaultFilterDirectives

/-- How `run` ends: the message `.expect(...)` aborts with when the runtime's
`run` call returns an error. -/
def expectMsg : String := "error while running tauri application"

/-- Outcome of the tail of `run`: either the event loop completed normally or
the process was terminated by a panic with a message. -/
inductive RunOutcome
  | completed
  | panicked (msg : String)
deriving DecidableEq

/-- The tail of `run`: `.run(tauri::generate_context!()).expect("error while
running tauri application")`. The event loop's own result is the parameter
`r`; `expect` turns an error into process termination with the fixed message
and is the only handling applied. -/
def finishRun {ε : Type} (r : Except ε Unit) : RunOutcome :=
  match r with
  | Except.ok _ => RunOutcome.completed
  | Except.error _ => RunOutcome.panicked expectMsg

/-- Modelled from the spec: one request to the external shell-opening
facility. The handler making such requests exists only in a repository
variant that is not under src/. -/
inductive ShellRequest
  | openUrl (url : String)
deriving DecidableEq

/-- Modelled from the spec: the fixed hardcoded local URL the "open compact
mode" handler opens. The spec does not record the literal, only that it is a
single fixed local URL, so the model fixes an arbitrary constant. -/
def compactModeUrl : String := "http://localhost/compact"

/-- Modelled from the spec: the "open compact mode" command/menu-event
handler, absent from src/. It takes no arguments and invokes the external
shell-opening facility with the one fixed local URL. -/
def open_compact_mode : Unit → List ShellRequest :=
  fun _ => [ShellRequest.openUrl compactModeUrl]

/-- Shell requests issued after invoking the "open compact mode" handler
`n` times. -/
def invokeCompactMode : Nat → List ShellRequest
  | 0 => []
  | n + 1 => invokeCompactMode n ++ open_compact_mode ()

/-! Theorems settling the claims. -/

/-- C1: for every name string (the empty one included), when the offloaded
worker task completes, `greet` returns exactly
"Hello, {name}! You've been greeted from Rust!" with the given name
substituted; the result is computed from the name alone, so it is a
deterministic function of the name. -/
theorem greet_completed (name : String) :
    greet name none = "Hello, " ++ name ++ "! You've been greeted from Rust!" := rfl

/-- C2: for every name string, when the join of the spawned blocking task
yields an error (whichever `JoinError` it is), `greet` returns exactly the
hardcoded fallback string "Hello!". -/
theorem greet_join_failure (name : String) (e : JoinError) :
    greet name (some e) = "Hello!" := rfl

/-- C9: `greet` is total: for every name and every join outcome it returns a
string, and that string is either the formatted greeting or the fallback —
the join-error branch is fully absorbed, no error or panic reaches the
caller (the embedding's return type is `String`, not an `Except`). -/
theorem greet_total (name : String) (joinErr : Option JoinError) :
    greet name joinErr = greetWorker name ∨ greet name joinErr = "Hello!" := by
  cases joinErr <;> simp [greet, joinResult]

/-- C3: the invoke handler of `run` is generated from the single command
`greet`, so the command surface registers exactly the one command named
"greet" and no other. -/
theorem invoke_handler_registers_only_greet :
    registeredCommands = ["greet"] ∧ registeredCommands.length = 1 :=
  ⟨rfl, rfl⟩

/-- C4 counterexample: no auto-updater plugin is registered in `run` — the
updater crate appears in none of the builder's plugin registrations, so the
claim that all four listed plugins (updater among them) are wired is false. -/
theorem no_updater_registration :
    ¬ "tauri_plugin_updater" ∈ (registeredPlugins Unit).map PluginReg.crateName := by
  decide

/-- C4 amended: `run` makes exactly three plugin registration calls on the
application builder before the event loop starts — shell-opener, SQL access,
and single-instance enforcement, in that order — and registers no
auto-updater. -/
theorem run_registers_three_plugins :
    (registeredPlugins Unit).map PluginReg.crateName =
      ["tauri_plugin_opener", "tauri_plugin_sql", "tauri_plugin_single_instance"] := by
  decide

/-- C6 counterexample: it is not the case that every plugin registration is a
bare library call — the single-instance registration installs a callback
defined in this repository, so `all` registrations lacking a repository
callback evaluates to false. -/
theorem single_instance_installs_repo_callback :
    ((registeredPlugins Unit).all fun r => !r.hasRepoCallback) = false := rfl

/-- C6 amended: the shell-opener and SQL registrations are bare calls into
externally maintained libraries with no custom logic, but the single-instance
registration does install a repository-defined callback (the one focusing the
"main" window); no updater registration exists at all. -/
theorem plugin_registration_callback_shape :
    (registeredPlugins Unit).map
        (fun r => (r.crateName, r.hasRepoCallback)) =
      [("tauri_plugin_opener", false), ("tauri_plugin_sql", false),
       ("tauri_plugin_single_instance", true)] := rfl

/-- C5: the "open compact mode" handler (modelled from the spec) takes no
arguments, and every invocation issues exactly one request to the
shell-opening facility, always with the same fixed local URL: after any
number of invocations the request trace is that one request repeated. -/
theorem open_compact_mode_fixed_url (u : Unit) (n : Nat) :
    open_compact_mode u = [ShellRequest.openUrl compactModeUrl] ∧
    invokeCompactMode n = List.replicate n (ShellRequest.openUrl compactModeUrl) := by
  refine ⟨rfl, ?_⟩
  induction n with
  | zero => rfl
  | succ k ih =>
      rw [invokeCompactMode, ih, List.replicate_succ']
      rfl

/-- C7: the logging filter `run` builds is a total function of the default
logging environment variable's value: when the variable is set to a value the
library parser accepts, the filter is the parsed one; when it is set but
unparseable, or unset, the filter is built from the fixed fallback string
"info,tauri=warn,wry=warn". -/
theorem run_logging_filter {F : Type} (tryNew : String → Option F)
    (new : String → F) :
    (∀ v f, tryNew v = some f → filterLayer tryNew new (some v) = f) ∧
    (∀ v, tryNew v = none →
      filterLayer tryNew new (some v) = new defaultFilterDirectives) ∧
    filterLayer tryNew new none = new defaultFilterDirectives := by
  refine ⟨fun v f h => ?_, fun v h => ?_, rfl⟩ <;>
    simp [filterLayer, tryFromDefaultEnv, h]

/-- C7 witness: the three branches of the filter derivation at concrete
parsers and environment values. -/
theorem run_logging_filter_witness :
    filterLayer (fun s => some s.length) String.length (some "debug") = 5 ∧
    filterLayer (fun _ => (none : Option Nat)) String.length (some "oops") =
      defaultFilterDirectives.length ∧
    filterLayer (fun s => some s.length) String.length none =
      defaultFilterDirectives.length := by
  refine ⟨?_, ?_, ?_⟩
  · exact (run_logging_filter (fun s => some s.length) String.length).1 "debug" 5 rfl
  · exact (run_logging_filter (fun _ => none) String.length).2.1 "oops" rfl
  · exact (run_logging_filter (fun s => some s.length) String.length).2.2

/-- C8: when the runtime's event loop returns an error, the tail of `run`
terminates the process by panicking with exactly the message
"error while running tauri application", and these are the only two outcomes:
normal completion or that panic — no other recovery path exists. -/
theorem run_error_terminates {ε : Type} (r : Except ε Unit) :
    (∀ e : ε, r = Except.error e → finishRun r = RunOutcome.panicked expectMsg) ∧
    (finishRun r = RunOutcome.completed ∨ finishRun r = RunOutcome.panicked expectMsg) := by
  cases r <;> simp [finishRun]

/-- C8 witness: a concrete failing event loop terminates with the fixed
panic message. -/
theorem run_error_terminates_witness :
    finishRun (Except.error 0 : Except Nat Unit) = RunOutcome.panicked expectMsg :=
  (run_error_terminates (Except.error 0)).1 0 rfl

/-- C10: the single-instance callback never fails: for every application
state and every outcome of `set_focus` it returns a state whose window set
and whose remaining state `rest` are unchanged; when no window keyed "main"
exists it does nothing at all, and when `set_focus` errors the error is
discarded and even the focus is left unchanged. -/
theorem single_instance_callback_safe {α : Type} (s : AppState α)
    (focusResult : Except FocusError Unit) :
    (singleInstanceCallback s focusResult).windowKeys = s.windowKeys ∧
    (singleInstanceCallback s focusResult).rest = s.rest ∧
    (s.windowKeys.contains "main" = false → singleInstanceCallback s focusResult = s) ∧
    (∀ e, focusResult = Except.error e →
      (singleInstanceCallback s focusResult).focusedWindow = s.focusedWindow) := by
  cases focusResult <;>
    by_cases h : "main" ∈ s.windowKeys <;>
    simp [singleInstanceCallback, h]

/-- C10 witness: with no "main" window the callback is the identity, and with
a "main" window a failing `set_focus` leaves the focus untouched. -/
theorem single_instance_callback_safe_witness :
    singleInstanceCallback (AppState.mk [] none (0 : Nat)) (Except.ok ()) =
      AppState.mk [] none (0 : Nat) ∧
    (singleInstanceCallback (AppState.mk ["main"] none (0 : Nat))
        (Except.error FocusError.backendFailure)).focusedWindow = none := by
  constructor
  · exact (single_instance_callback_safe (AppState.mk [] none 0) (Except.ok ())).2.2.1 rfl
  · exact (single_instance_callback_safe (AppState.mk ["main"] none 0)
      (Except.error FocusError.backendFailure)).2.2.2 FocusError.backendFailure rfl

end Rtodo
